import Mathlib

/-!
Verification development for the ntomb detection-rule engine.

The definitions below are a shallow embedding, in Lean 4, of the Python
sources `ntomb_mcp/detection_rules.py` and `ntomb_mcp/server.py`:

* dict-shaped connection records become the `Conn` structure (a missing
  key is represented by the same default value that `dict.get` supplies);
* a rule's `match` mapping becomes the `MatchMap` structure of optional
  predicate values (a `none` field means the key is absent; the field
  `exclude_private_ips` records mere presence of that key, which is all
  the source ever tests);
* Python ints are `Int`; Python string operations (`upper`, `lower`,
  `startswith`, `split(".")`, `strip`, substring membership) are
  re-implemented on the character list of the string so that every
  definition evaluates inside the kernel; case mapping is ASCII, which
  agrees with Python on the ASCII strings the engine handles;
* `int(...)`, which can raise `ValueError`, becomes the total function
  `pyInt : String → Option Int` (ASCII digits, optional sign, optional
  underscores between digits, surrounding whitespace — the Python
  grammar restricted to ASCII);
* functions that can raise return `Option` (`none` = exception);
* Python `set` values become `Finset` (baseline differ) or
  insertion-ordered duplicate-free lists (tag/reason unions), since no
  claim depends on the iteration order of a Python set.

Operations that only touch the OS or the filesystem (psutil enumeration,
YAML loading) are outside the embedded core: the pure analysis functions
receive the connection list / rule list / state vocabulary as arguments,
exactly as the Python functions receive them after those I/O steps.
-/

namespace Ntomb

/-- Head test on character lists: the first argument is a prefix of the
second. -/
def leadsWith : List Char → List Char → Bool
  | [], _ => true
  | _ :: _, [] => false
  | a :: as, b :: bs => a = b && leadsWith as bs

/-- Model of Python `s.startswith(p)`. -/
def strStartsWith (s p : String) : Bool := leadsWith p.data s.data

/-- Containment test on character lists: the first argument occurs as a
contiguous run inside the second (Python `needle in hay`). -/
def containsSeq (needle : List Char) : List Char → Bool
  | [] => leadsWith needle []
  | c :: rest => leadsWith needle (c :: rest) || containsSeq needle rest

/-- Model of Python `needle in hay` on strings. -/
def strContains (hay needle : String) : Bool := containsSeq needle.data hay.data

/-- Model of Python `str.upper` for the ASCII strings handled by the engine. -/
def supper (s : String) : String := String.mk (s.data.map Char.toUpper)

/-- Model of Python `str.lower` for the ASCII strings handled by the engine. -/
def slower (s : String) : String := String.mk (s.data.map Char.toLower)

/-- Splitting on a single separator character, with Python `str.split`
semantics: `""` yields `[""]`, and a trailing separator yields a final
empty piece. -/
def splitOnCharAux (sep : Char) : List Char → List Char → List String
  | [], acc => [String.mk acc.reverse]
  | d :: rest, acc =>
    if d = sep then String.mk acc.reverse :: splitOnCharAux sep rest []
    else splitOnCharAux sep rest (d :: acc)

/-- Model of Python `s.split(c)` for a one-character separator. -/
def splitOnChar (sep : Char) (s : String) : List String :=
  splitOnCharAux sep s.data []

/-- The `.` character. -/
def dotChar : Char := Char.ofNat 46

/-- Python whitespace recognised by `str.strip()` (ASCII part: space,
tab, newline, carriage return, vertical tab, form feed). -/
def pySpace (c : Char) : Bool :=
  c = Char.ofNat 32 || c = Char.ofNat 9 || c = Char.ofNat 10 ||
  c = Char.ofNat 13 || c = Char.ofNat 11 || c = Char.ofNat 12

/-- Model of Python `str.strip()` with no argument. -/
def pyStrip (s : String) : String :=
  String.mk (((s.data.dropWhile pySpace).reverse.dropWhile pySpace).reverse)

/-- A single-quote character, used when rendering Python string reprs. -/
def sq : String := String.singleton (Char.ofNat 39)

/-- Concatenate strings with a separator between consecutive elements. -/
def joinSep (sep : String) : List String → String
  | [] => ""
  | [x] => x
  | x :: y :: rest => x ++ sep ++ joinSep sep (y :: rest)

/-- Python `repr` of a list of plain strings, e.g. a bracketed,
comma-separated list of single-quoted items. -/
def pyRepr (xs : List String) : String :=
  "[" ++ joinSep ", " (xs.map (fun s => sq ++ s ++ sq)) ++ "]"

/-- Digit tail of Python `int` parsing: consumes ASCII digits, allowing a
single underscore between two digits, accumulating the value. -/
def pyDigits : List Char → Nat → Option Nat
  | [], acc => some acc
  | c :: rest, acc =>
    if c.isDigit then pyDigits rest (acc * 10 + (c.toNat - 48))
    else if c = Char.ofNat 95 then
      match rest with
      | [] => none
      | d :: rest2 =>
        if d.isDigit then pyDigits rest2 (acc * 10 + (d.toNat - 48)) else none
    else none

/-- Signed part of Python `int` parsing (after whitespace stripping). -/
def pyIntSign : List Char → Option Int
  | [] => none
  | c :: rest =>
    if c = Char.ofNat 43 then
      match rest with
      | [] => none
      | d :: rest2 =>
        if d.isDigit then (pyDigits rest2 (d.toNat - 48)).map (fun n => (n : Int))
        else none
    else if c = Char.ofNat 45 then
      match rest with
      | [] => none
      | d :: rest2 =>
        if d.isDigit then (pyDigits rest2 (d.toNat - 48)).map (fun n => -(n : Int))
        else none
    else if c.isDigit then (pyDigits rest (c.toNat - 48)).map (fun n => (n : Int))
    else none

/-- Model of Python `int(s)` on ASCII input: `some n` on success, `none`
when `ValueError` would be raised. -/
def pyInt (s : String) : Option Int := pyIntSign (pyStrip s).data

/-- Append an element to a list when it is not already present; folding
this models the growth of a Python `set` (iteration order of the result
is insertion order, which no claim depends on). -/
def insertNew (acc : List String) (t : String) : List String :=
  if t ∈ acc then acc else acc ++ [t]

/-- Union of a Python `set` (as insertion-ordered list) with an iterable. -/
def setUnion (acc : List String) (ts : List String) : List String :=
  ts.foldl insertNew acc

/-- Deduplicate a list keeping first occurrences; this is `list(set(l))`
with insertion order standing in for the unspecified set order. -/
def dedupKeepFirst (l : List String) : List String := l.foldl insertNew []

/-- A connection record (the dict produced by `list_connections`, or any
dict passed to the matcher; a missing key behaves as the listed default,
mirroring every `conn.get(key, default)` in the source). -/
structure Conn where
  pid : Option Int := none
  process_name : String := ""
  local_address : String := ""
  local_port : Int := 0
  remote_address : String := ""
  remote_port : Int := 0
  state : String := ""
  proto : String := "tcp"
deriving Repr, DecidableEq

/-- A rule's `match` mapping. A `none` field means the predicate key is
absent from the mapping. `exclude_private_ips` records whether that key
is present (the source only ever tests `'exclude_private_ips' in self.match`). -/
structure MatchMap where
  state : Option String := none
  state_in : Option (List String) := none
  remote_port_gte : Option Int := none
  local_port_gte : Option Int := none
  local_port_lte : Option Int := none
  direction : Option String := none
  exclude_private_ips : Bool := false
deriving Repr, DecidableEq

/-- The `DetectionRule` dataclass (the opaque `effects` dict is omitted:
the engine never evaluates it). The Lean keyword `match` forces the
field name `match_`. -/
structure DetectionRule where
  id : String := "unknown"
  name : String := "Unknown Rule"
  description : String := ""
  severity : String := "low"
  tags : List String := []
  match_ : MatchMap := {}
deriving Repr, DecidableEq

/-- `DetectionConfig` restricted to the field the analysis reads; the
`thresholds` / `tag_definitions` / `highlight_styles` fields are
pass-through metadata never consumed by the embedded operations. -/
structure DetectionConfig where
  rules : List DetectionRule := []
deriving Repr

namespace DetectionRules

/-- The `172.` second-octet test of `detection_rules._is_private_ip`:
split on dots, parse part 1 with `int` (a `ValueError` is swallowed by
the `try`/`except` and yields `False`), and test membership in [16,31]. -/
def secondOctetPrivate (ip : String) : Bool :=
  let parts := splitOnChar dotChar ip
  if 2 ≤ parts.length then
    match pyInt (parts.getD 1 "") with
    | some second => decide (16 ≤ second) && decide (second ≤ 31)
    | none => false
  else false

/-- `detection_rules._is_private_ip`, translated clause by clause. -/
def _is_private_ip (ip : String) : Bool :=
  if ip = "" then true
  else if strStartsWith ip "127." || strStartsWith ip "10." then true
  else if strStartsWith ip "192.168." then true
  else if strStartsWith ip "172." && secondOctetPrivate ip then true
  else if ip = "::1" || strStartsWith ip "fe80:" || ip = "::" then true
  else if ip = "0.0.0.0" then true
  else false

/-- The `state` block of `matches_connection`: `none` is the early
`return False, []`. -/
def checkState (m : MatchMap) (c : Conn) (rs : List String) : Option (List String) :=
  match m.state with
  | none => some rs
  | some v =>
    if supper c.state = supper v then some (rs ++ ["state=" ++ v]) else none

/-- The `state_in` block of `matches_connection`. -/
def checkStateIn (m : MatchMap) (c : Conn) (rs : List String) : Option (List String) :=
  match m.state_in with
  | none => some rs
  | some l =>
    let states := l.map supper
    if supper c.state ∈ states then some (rs ++ ["state in " ++ pyRepr states])
    else none

/-- The `remote_port_gte` block of `matches_connection`. -/
def checkRemotePortGte (m : MatchMap) (c : Conn) (rs : List String) : Option (List String) :=
  match m.remote_port_gte with
  | none => some rs
  | some v =>
    if v ≤ c.remote_port then some (rs ++ ["remote_port >= " ++ toString v])
    else none

/-- The `local_port_gte` block of `matches_connection`. -/
def checkLocalPortGte (m : MatchMap) (c : Conn) (rs : List String) : Option (List String) :=
  match m.local_port_gte with
  | none => some rs
  | some v =>
    if v ≤ c.local_port then some (rs ++ ["local_port >= " ++ toString v])
    else none

/-- The `local_port_lte` block of `matches_connection`. -/
def checkLocalPortLte (m : MatchMap) (c : Conn) (rs : List String) : Option (List String) :=
  match m.local_port_lte with
  | none => some rs
  | some v =>
    if c.local_port ≤ v then some (rs ++ ["local_port <= " ++ toString v])
    else none

/-- The `direction` block of `matches_connection`: appends a reason when
the remote address is non-empty and external; in every other case it
leaves the reasons unchanged — neither branch of the Python
`if`/`elif` returns a failure, so this block can never reject, whether
or not `exclude_private_ips` is present. -/
def directionReasons (m : MatchMap) (c : Conn) (rs : List String) : List String :=
  if m.direction = some "outbound" then
    if c.remote_address ≠ "" && !(_is_private_ip c.remote_address) then
      rs ++ ["direction=outbound (external IP)"]
    else rs
  else rs

/-- `DetectionRule.matches_connection`, preserving the early-return
control flow: each failed predicate block short-circuits with
`(false, [])`, and the final result is `(len(reasons) > 0, reasons)`. -/
def matches_connection (r : DetectionRule) (c : Conn) : Bool × List String :=
  match checkState r.match_ c [] with
  | none => (false, [])
  | some rs1 =>
    match checkStateIn r.match_ c rs1 with
    | none => (false, [])
    | some rs2 =>
      match checkRemotePortGte r.match_ c rs2 with
      | none => (false, [])
      | some rs3 =>
        match checkLocalPortGte r.match_ c rs3 with
        | none => (false, [])
        | some rs4 =>
          match checkLocalPortLte r.match_ c rs4 with
          | none => (false, [])
          | some rs5 =>
            let rs6 := directionReasons r.match_ c rs5
            (decide (0 < rs6.length), rs6)

/-- The `severity_order` lookup table of `analyze_connection`, with the
`.get(s, 0)` default for strings outside the table. -/
def severity_order (s : String) : Nat :=
  if s = "normal" then 0
  else if s = "low" then 1
  else if s = "medium" then 2
  else if s = "high" then 3
  else if s = "critical" then 4
  else 0

/-- One entry of the `matched_rules` list built by `analyze_connection`. -/
structure MatchedRule where
  rule_id : String
  rule_name : String
  severity : String
  reasons : List String
deriving Repr, DecidableEq

/-- The loop state of `analyze_connection` (accumulators before the
result dict is assembled). -/
structure AnalyzeState where
  matched_rules : List MatchedRule := []
  max_severity : String := "normal"
  all_tags : List String := []
  all_reasons : List String := []
deriving Repr

/-- The result dict of `analyze_connection`. -/
structure Analysis where
  connection : Conn
  is_suspicious : Bool
  severity : String
  matched_rules : List MatchedRule
  tags : List String
  match_reasons : List String
deriving Repr

/-- One iteration of the rule loop in `analyze_connection`. -/
def analyzeStep (c : Conn) (st : AnalyzeState) (rule : DetectionRule) : AnalyzeState :=
  let mr := matches_connection rule c
  if mr.1 then
    { matched_rules := st.matched_rules ++
        [{ rule_id := rule.id, rule_name := rule.name,
           severity := rule.severity, reasons := mr.2 }]
      max_severity :=
        if severity_order st.max_severity < severity_order rule.severity
        then rule.severity else st.max_severity
      all_tags := setUnion st.all_tags rule.tags
      all_reasons := st.all_reasons ++ mr.2 }
  else st

/-- `detection_rules.analyze_connection`: run every rule, collect the
matches, raise the maximum severity, union tags and reasons. -/
def analyze_connection (c : Conn) (config : DetectionConfig) : Analysis :=
  let st := config.rules.foldl (analyzeStep c) {}
  { connection := c
    is_suspicious := decide (0 < st.matched_rules.length)
    severity := st.max_severity
    matched_rules := st.matched_rules
    tags := st.all_tags
    match_reasons := dedupKeepFirst st.all_reasons }

end DetectionRules

namespace Server

open DetectionRules

/-- The `172.` block of `server._is_private_ip`: here `int(parts[1])`
is not wrapped in `try`/`except`, so a second octet that fails to parse
raises `ValueError`, modelled by `none`; `some true` means the block
returned private, `some false` that execution falls through. -/
def step172 (ip : String) : Option Bool :=
  if strStartsWith ip "172." then
    let parts := splitOnChar dotChar ip
    if 2 ≤ parts.length then
      match pyInt (parts.getD 1 "") with
      | none => none
      | some second => some (decide (16 ≤ second) && decide (second ≤ 31))
    else some false
  else some false

/-- The trailing clauses of `server._is_private_ip` (it has no `::` and
no `0.0.0.0` clause, unlike the `detection_rules` twin). -/
def tailPrivate (ip : String) : Bool :=
  ip = "::1" || strStartsWith ip "fe80:"

/-- `server._is_private_ip`, translated clause by clause. Unlike the
`detection_rules` twin it has no empty-string, `::` or `0.0.0.0` clause,
and an unparsable second octet of a `172.` address raises (`none`). -/
def _is_private_ip (ip : String) : Option Bool :=
  if strStartsWith ip "127." || strStartsWith ip "10." then some true
  else if strStartsWith ip "192.168." then some true
  else
    match step172 ip with
    | none => none
    | some true => some true
    | some false => if tailPrivate ip then some true else some false

/-- An element of a findings bucket in `analyze_connections`: suspicious
connections are stored as a summary dict (connection identity, matched
rule names, tags), non-suspicious ones as the raw connection dict. -/
inductive BucketEntry where
  | rawConn (c : Conn)
  | finding (c : Conn) (matched_rule_names : List String) (tags : List String)
deriving Repr, DecidableEq

/-- The summary entry appended for a suspicious connection. -/
def mkFinding (c : Conn) (a : Analysis) : BucketEntry :=
  .finding c (a.matched_rules.map (fun m => m.rule_name)) a.tags

/-- The five severity buckets of the `findings` dict. -/
structure Buckets where
  critical : List BucketEntry := []
  high : List BucketEntry := []
  medium : List BucketEntry := []
  low : List BucketEntry := []
  normal : List BucketEntry := []
deriving Repr

/-- `findings[severity].append(entry)`: `none` models the `KeyError`
raised when `severity` names no bucket. -/
def bucketAppend (b : Buckets) (sev : String) (e : BucketEntry) : Option Buckets :=
  if sev = "critical" then some { b with critical := b.critical ++ [e] }
  else if sev = "high" then some { b with high := b.high ++ [e] }
  else if sev = "medium" then some { b with medium := b.medium ++ [e] }
  else if sev = "low" then some { b with low := b.low ++ [e] }
  else if sev = "normal" then some { b with normal := b.normal ++ [e] }
  else none

/-- One iteration of the connection loop in `analyze_connections`:
analyze, then route to the severity bucket (suspicious) or the `normal`
bucket (otherwise), while accumulating the detected-tag union. -/
def connStep (config : DetectionConfig) (st : Option (Buckets × List String))
    (c : Conn) : Option (Buckets × List String) :=
  match st with
  | none => none
  | some (b, tags) =>
    let a := analyze_connection c config
    if a.is_suspicious then
      match bucketAppend b a.severity (mkFinding c a) with
      | none => none
      | some b2 => some (b2, setUnion tags a.tags)
    else some ({ b with normal := b.normal ++ [.rawConn c] }, tags)

/-- The report dict returned by `analyze_connections` (the four severity
bucket lists are returned; the `normal` bucket is only used internally,
and is kept here so its size can be spoken about). -/
structure Report where
  total_connections : Nat
  suspicious_count : Nat
  by_severity_critical : Nat
  by_severity_high : Nat
  by_severity_medium : Nat
  by_severity_low : Nat
  detected_tags : List String
  findings : Buckets
  rules_loaded : Nat
deriving Repr

/-- `server.analyze_connections`, with the connection list (produced in
Python by the psutil-backed `list_connections`) passed as an argument.
`none` models an uncaught `KeyError` from a bucket lookup. -/
def analyze_connections (conns : List Conn) (config : DetectionConfig) :
    Option Report :=
  match conns.foldl (connStep config) (some ({}, [])) with
  | none => none
  | some (b, tags) =>
    some
      { total_connections := conns.length
        suspicious_count :=
          b.critical.length + b.high.length + b.medium.length + b.low.length
        by_severity_critical := b.critical.length
        by_severity_high := b.high.length
        by_severity_medium := b.medium.length
        by_severity_low := b.low.length
        detected_tags := tags
        findings := b
        rules_loaded := config.rules.length }

/-- Truthiness of the optional `pid` entry (`if c.get("pid")`): absent
and `0` are both falsy. -/
def truthyPid (p : Option Int) : Bool :=
  match p with
  | none => false
  | some n => decide (n ≠ 0)

/-- The `current_pids` set of `compare_baseline`. -/
def current_pids (conns : List Conn) : Finset Int :=
  (conns.filterMap (fun c => if truthyPid c.pid then c.pid else none)).toFinset

/-- The `"ip:port"` string built for a connection. -/
def remoteKey (c : Conn) : String :=
  c.remote_address ++ ":" ++ toString c.remote_port

/-- The `current_remotes` set of `compare_baseline`: connections whose
remote address is non-empty and not `"0.0.0.0"`. -/
def current_remotes (conns : List Conn) : Finset String :=
  (conns.filterMap (fun c =>
    if c.remote_address ≠ "" ∧ c.remote_address ≠ "0.0.0.0"
    then some (remoteKey c) else none)).toFinset

/-- Truthiness of an optional list argument: `None` and `[]` are falsy. -/
def truthyList {α : Type} (o : Option (List α)) : Bool :=
  match o with
  | none => false
  | some l => !l.isEmpty

/-- The result of `compare_baseline` (counts plus the computed sets and
the enriched new-connection list). -/
structure BaselineComparison where
  total_current_connections : Nat
  new_pids_count : Nat
  new_remotes_count : Nat
  new_pids : Finset Int
  new_remote_endpoints : Finset String
  new_connections : List Conn

/-- `server.compare_baseline`, with the live connection list passed as
an argument. Note the truthiness guards: `new_pids` (resp. remotes) is
the set difference only when the baseline argument is a non-empty list,
and `∅` when it is `None` or `[]`. -/
def compare_baseline (conns : List Conn) (baseline_pids : Option (List Int))
    (baseline_remotes : Option (List String)) : BaselineComparison :=
  let cp := current_pids conns
  let cr := current_remotes conns
  let new_pids : Finset Int :=
    if truthyList baseline_pids then cp \ (baseline_pids.getD []).toFinset else ∅
  let new_remotes : Finset String :=
    if truthyList baseline_remotes then cr \ (baseline_remotes.getD []).toFinset
    else ∅
  let new_connections := conns.filter (fun c =>
    decide (remoteKey c ∈ new_remotes) ||
      (match c.pid with
       | some n => decide (n ∈ new_pids)
       | none => false))
  { total_current_connections := conns.length
    new_pids_count := new_pids.card
    new_remotes_count := new_remotes.card
    new_pids := new_pids
    new_remote_endpoints := new_remotes
    new_connections := new_connections }

/-- The keyword-to-tag table of `suggest_new_rule`, in source order. -/
def keywordTable : List (String × List String) :=
  [("beacon", ["beacon", "비콘", "주기적", "periodic", "interval"]),
   ("exfiltration", ["exfil", "유출", "대용량", "large", "transfer"]),
   ("backdoor", ["backdoor", "백도어", "listener", "리스너", "bind"]),
   ("scanning", ["scan", "스캔", "probe", "탐색"]),
   ("c2", ["c2", "command", "control", "명령"]),
   ("anomaly", ["unusual", "이상", "unexpected", "비정상"])]

/-- The tag-detection pass of `suggest_new_rule`: a tag is emitted when
any of its keywords occurs in the lowercased description; the default is
`["anomaly"]` when nothing matched. -/
def detected_tags (pattern_description : String) : List String :=
  let pattern_lower := slower pattern_description
  let tags := keywordTable.filterMap (fun kw =>
    if kw.2.any (fun w => strContains pattern_lower w) then some kw.1 else none)
  if tags = [] then ["anomaly"] else tags

/-- The severity heuristic of `suggest_new_rule`, translated branch by
branch (the `scanning` branch re-assigns the initial `"medium"`). -/
def suggested_severity (tags : List String) : String :=
  if tags.contains "c2" || tags.contains "exfiltration" then "high"
  else if tags.contains "backdoor" then "high"
  else if tags.contains "scanning" then "medium"
  else "medium"

/-- The distinct (uppercased) states among the sample connections, as
built by `set(c.get("state", "").upper() for c in ... if c.get("state"))`;
insertion order stands in for the unspecified set order. -/
def sampleStates (samples : List Conn) : List String :=
  dedupKeepFirst (samples.filterMap (fun c =>
    if c.state ≠ "" then some (supper c.state) else none))

/-- The truthy remote ports among the sample connections. -/
def samplePorts (samples : List Conn) : List Int :=
  samples.filterMap (fun c =>
    if c.remote_port ≠ 0 then some c.remote_port else none)

/-- The `match_criteria` dict built by `suggest_new_rule` from sample
connections: an exact `state` for one distinct state, `state_in` for
several, and a bucketed `remote_port_gte` from the minimum observed
truthy remote port. -/
def build_match_criteria (samples : List Conn) : MatchMap :=
  let states := sampleStates samples
  let m1 : MatchMap :=
    if states ≠ [] then
      if states.length = 1 then { state := some (states.headD "") }
      else { state_in := some states }
    else {}
  match samplePorts samples with
  | [] => m1
  | p :: ps =>
    let min_port := ps.foldl min p
    if 49152 < min_port then { m1 with remote_port_gte := some 49152 }
    else if 1024 < min_port then { m1 with remote_port_gte := some 1024 }
    else m1

/-- The `suggested_rule` part of the `suggest_new_rule` result (the
id-slug, YAML rendering and Korean templates are presentation artifacts
not consumed by any claim). -/
structure SuggestedRule where
  severity : String
  tags : List String
  match_criteria : MatchMap
deriving Repr

/-- `server.suggest_new_rule`, restricted to the computed fields: tags
from the keyword table, severity from the tag heuristic, and match
criteria from the (truthy) sample-connection list. -/
def suggest_new_rule (pattern_description : String)
    (observed_connections : Option (List Conn)) : SuggestedRule :=
  let tags := detected_tags pattern_description
  { severity := suggested_severity tags
    tags := tags
    match_criteria :=
      if truthyList observed_connections then
        build_match_criteria (observed_connections.getD [])
      else {} }

/-- A finding dict of `analyze_spec_consistency` (`type` is a Lean
keyword-adjacent name, hence `type_`). -/
structure Finding where
  type_ : String
  severity : String
  rule_id : String
  message : String
deriving Repr, DecidableEq

/-- The warning finding emitted for a state reference missing from the
`network_map.yaml` vocabulary. -/
def mkStateFinding (r : DetectionRule) (s : String) : Finding :=
  { type_ := "invalid_state_reference"
    severity := "warning"
    rule_id := r.id
    message := "규칙 " ++ sq ++ r.id ++ sq ++ "이 network_map.yaml에 없는 상태 "
      ++ sq ++ s ++ sq ++ "를 참조합니다." }

/-- The error finding emitted for a severity outside the valid enum. -/
def mkSeverityFinding (r : DetectionRule) : Finding :=
  { type_ := "invalid_severity"
    severity := "error"
    rule_id := r.id
    message := "규칙 " ++ sq ++ r.id ++ sq ++ "의 심각도 " ++ sq ++ r.severity
      ++ sq ++ "가 유효하지 않습니다." }

/-- The state findings contributed by one rule: the `state` key checks
its uppercased value, `state_in` checks each member (uppercased for the
test, original in the message); both are guarded by the vocabulary being
non-empty (`and network_map_states` on a set is a non-emptiness test). -/
def ruleStateFindings (network_map_states : List String) (r : DetectionRule) :
    List Finding :=
  (match r.match_.state with
   | none => []
   | some v =>
     if supper v ∉ network_map_states ∧ network_map_states ≠ []
     then [mkStateFinding r (supper v)] else []) ++
  (match r.match_.state_in with
   | none => []
   | some l =>
     l.filterMap (fun s =>
       if supper s ∉ network_map_states ∧ network_map_states ≠ []
       then some (mkStateFinding r s) else none))

/-- All state-reference findings (first loop of `analyze_spec_consistency`). -/
def stateFindings (rules : List DetectionRule) (network_map_states : List String) :
    List Finding :=
  (rules.map (ruleStateFindings network_map_states)).flatten

/-- The valid severity enum of `analyze_spec_consistency`. -/
def valid_severities : List String := ["low", "medium", "high", "critical"]

/-- All severity findings (second loop of `analyze_spec_consistency`). -/
def severityFindings (rules : List DetectionRule) : List Finding :=
  (rules.map (fun r =>
    if r.severity ∉ valid_severities then [mkSeverityFinding r] else [])).flatten

/-- The result of `analyze_spec_consistency` restricted to the findings
and their summary counts. -/
structure ConsistencyReport where
  total_findings : Nat
  errors : Nat
  warnings : Nat
  findings : List Finding
deriving Repr

/-- `server.analyze_spec_consistency`, with the rule list and the state
vocabulary (read in Python from `network_map.yaml`) passed as arguments.
The function is total: findings are data in the returned structure,
never exceptions. -/
def analyze_spec_consistency (rules : List DetectionRule)
    (network_map_states : List String) : ConsistencyReport :=
  let findings := stateFindings rules network_map_states ++ severityFindings rules
  { total_findings := findings.length
    errors := (findings.filter (fun f => f.severity = "error")).length
    warnings := (findings.filter (fun f => f.severity = "warning")).length
    findings := findings }

end Server

namespace Spec

open DetectionRules Server

/-- Success of the `state` predicate when present (true when absent). -/
def stateOkB (m : MatchMap) (c : Conn) : Bool :=
  match m.state with
  | none => true
  | some v => supper c.state = supper v

/-- Success of the `state_in` predicate when present (true when absent). -/
def stateInOkB (m : MatchMap) (c : Conn) : Bool :=
  match m.state_in with
  | none => true
  | some l => supper c.state ∈ l.map supper

/-- Success of the `remote_port_gte` predicate when present. -/
def remotePortGteOkB (m : MatchMap) (c : Conn) : Bool :=
  match m.remote_port_gte with
  | none => true
  | some v => v ≤ c.remote_port

/-- Success of the `local_port_gte` predicate when present. -/
def localPortGteOkB (m : MatchMap) (c : Conn) : Bool :=
  match m.local_port_gte with
  | none => true
  | some v => v ≤ c.local_port

/-- Success of the `local_port_lte` predicate when present. -/
def localPortLteOkB (m : MatchMap) (c : Conn) : Bool :=
  match m.local_port_lte with
  | none => true
  | some v => c.local_port ≤ v

/-- Conjunction of the five hard predicate keys (those whose failure
short-circuits `matches_connection`). -/
def hardOkB (m : MatchMap) (c : Conn) : Bool :=
  stateOkB m c && stateInOkB m c && remotePortGteOkB m c &&
    localPortGteOkB m c && localPortLteOkB m c

/-- At least one hard predicate key is present in the match map. -/
def hardPresent (m : MatchMap) : Bool :=
  m.state.isSome || m.state_in.isSome || m.remote_port_gte.isSome ||
    m.local_port_gte.isSome || m.local_port_lte.isSome

/-- The `direction=outbound` key is present and the remote address is a
non-empty external (non-private) address — the only situation in which
the direction block contributes a reason. -/
def dirExternal (m : MatchMap) (c : Conn) : Bool :=
  m.direction = some "outbound" &&
    (c.remote_address ≠ "" && !(DetectionRules._is_private_ip c.remote_address))

/-- Claim C1 as stated by the spec: a match holds iff every predicate
key present in the match map succeeds, where the `direction=outbound`
condition (remote non-empty and external) is tolerated silently only
when the rule lacks an `exclude_private_ips` key. This definition
follows the spec sentence, to be compared against the source-derived
`matches_connection`. -/
def specMatchedC1 (m : MatchMap) (c : Conn) : Bool :=
  hardOkB m c &&
    (!(m.direction = some "outbound") || !m.exclude_private_ips ||
      (c.remote_address ≠ "" && !(DetectionRules._is_private_ip c.remote_address)))

/-- The private-address characterization of claim C2 with the
"unparsable input is private" clause removed (the amendment): the
second-octet clause asks for an interval membership of the parsed
octet, written independently of the source's control flow. -/
def specPrivateC2 (ip : String) : Prop :=
  ip = "" ∨ strStartsWith ip "127." = true ∨ strStartsWith ip "10." = true ∨
    strStartsWith ip "192.168." = true ∨
    (strStartsWith ip "172." = true ∧
      ∃ n : Int, pyInt ((splitOnChar dotChar ip).getD 1 "") = some n ∧
        16 ≤ n ∧ n ≤ 31) ∨
    ip = "::1" ∨ strStartsWith ip "fe80:" = true ∨ ip = "::" ∨ ip = "0.0.0.0"

/-- Claim C5 as stated by the spec: `new_pids` is the set difference
whenever a baseline pid list is supplied (also an empty one), and empty
only when none is supplied. This definition follows the spec sentence,
to be compared against the source-derived `compare_baseline`. -/
def specNewPidsC5 (conns : List Conn) (baseline_pids : Option (List Int)) :
    Finset Int :=
  match baseline_pids with
  | none => ∅
  | some l => current_pids conns \ l.toFinset

/-- The severity-`sev` findings bucket described as a filter over the
connection list: suspicious connections whose analysis severity is `sev`
contribute their summary entry. -/
def bucketOf (config : DetectionConfig) (sev : String) (conns : List Conn) :
    List BucketEntry :=
  conns.filterMap (fun c =>
    let a := analyze_connection c config
    if a.is_suspicious then
      if a.severity = sev then some (mkFinding c a) else none
    else none)

/-- The `normal` bucket described as a filter over the connection list:
non-suspicious connections appear raw; a suspicious connection whose
aggregate severity string is `"normal"` would appear as a finding. -/
def normalBucketOf (config : DetectionConfig) (conns : List Conn) :
    List BucketEntry :=
  conns.filterMap (fun c =>
    let a := analyze_connection c config
    if a.is_suspicious then
      if a.severity = "normal" then some (mkFinding c a) else none
    else some (.rawConn c))

/-- The reason contributed by the `state` key when it succeeds. -/
def stateRs (m : MatchMap) : List String :=
  match m.state with
  | none => []
  | some v => ["state=" ++ v]

/-- The reason contributed by the `state_in` key when it succeeds. -/
def stateInRs (m : MatchMap) : List String :=
  match m.state_in with
  | none => []
  | some l => ["state in " ++ pyRepr (l.map supper)]

/-- The reason contributed by the `remote_port_gte` key when it succeeds. -/
def remotePortGteRs (m : MatchMap) : List String :=
  match m.remote_port_gte with
  | none => []
  | some v => ["remote_port >= " ++ toString v]

/-- The reason contributed by the `local_port_gte` key when it succeeds. -/
def localPortGteRs (m : MatchMap) : List String :=
  match m.local_port_gte with
  | none => []
  | some v => ["local_port >= " ++ toString v]

/-- The reason contributed by the `local_port_lte` key when it succeeds. -/
def localPortLteRs (m : MatchMap) : List String :=
  match m.local_port_lte with
  | none => []
  | some v => ["local_port <= " ++ toString v]

/-- The reason contributed by the direction block when the remote is a
non-empty external address. -/
def dirRs (m : MatchMap) (c : Conn) : List String :=
  if dirExternal m c then ["direction=outbound (external IP)"] else []

/-- The full reason list of a successful match, in source append order. -/
def matchReasons (m : MatchMap) (c : Conn) : List String :=
  stateRs m ++ stateInRs m ++ remotePortGteRs m ++ localPortGteRs m ++
    localPortLteRs m ++ dirRs m c

/-- Fold of the severity ordinals of matched rules over `max`, starting
from an arbitrary accumulator. -/
def msFold (l : List MatchedRule) (a : Nat) : Nat :=
  l.foldl (fun x mr => max x (severity_order mr.severity)) a

/-- The maximum severity ordinal among a list of matched rules (`0` for
an empty list, matching the ordinal of `"normal"`). -/
def msMax (l : List MatchedRule) : Nat := msFold l 0

/-- The five severity strings `analyze_connection` can ever report. -/
def severityList : List String := ["normal", "low", "medium", "high", "critical"]

end Spec

section Theorems

open DetectionRules Server Spec

theorem checkState_eq (m : MatchMap) (c : Conn) (rs : List String) :
    checkState m c rs = if stateOkB m c then some (rs ++ stateRs m) else none := by
  cases h : m.state with
  | none => simp [checkState, stateOkB, stateRs, h]
  | some v =>
    simp only [checkState, stateOkB, stateRs, h]
    by_cases hc : supper c.state = supper v <;> simp [hc]

theorem checkStateIn_eq (m : MatchMap) (c : Conn) (rs : List String) :
    checkStateIn m c rs = if stateInOkB m c then some (rs ++ stateInRs m) else none := by
  cases h : m.state_in with
  | none => simp [checkStateIn, stateInOkB, stateInRs, h]
  | some l =>
    simp only [checkStateIn, stateInOkB, stateInRs, h]
    by_cases hc : supper c.state ∈ l.map supper <;> simp [hc]

theorem checkRemotePortGte_eq (m : MatchMap) (c : Conn) (rs : List String) :
    checkRemotePortGte m c rs =
      if remotePortGteOkB m c then some (rs ++ remotePortGteRs m) else none := by
  cases h : m.remote_port_gte with
  | none => simp [checkRemotePortGte, remotePortGteOkB, remotePortGteRs, h]
  | some v =>
    simp only [checkRemotePortGte, remotePortGteOkB, remotePortGteRs, h]
    by_cases hc : v ≤ c.remote_port <;> simp [hc]

theorem checkLocalPortGte_eq (m : MatchMap) (c : Conn) (rs : List String) :
    checkLocalPortGte m c rs =
      if localPortGteOkB m c then some (rs ++ localPortGteRs m) else none := by
  cases h : m.local_port_gte with
  | none => simp [checkLocalPortGte, localPortGteOkB, localPortGteRs, h]
  | some v =>
    simp only [checkLocalPortGte, localPortGteOkB, localPortGteRs, h]
    by_cases hc : v ≤ c.local_port <;> simp [hc]

theorem checkLocalPortLte_eq (m : MatchMap) (c : Conn) (rs : List String) :
    checkLocalPortLte m c rs =
      if localPortLteOkB m c then some (rs ++ localPortLteRs m) else none := by
  cases h : m.local_port_lte with
  | none => simp [checkLocalPortLte, localPortLteOkB, localPortLteRs, h]
  | some v =>
    simp only [checkLocalPortLte, localPortLteOkB, localPortLteRs, h]
    by_cases hc : c.local_port ≤ v <;> simp [hc]

theorem directionReasons_eq (m : MatchMap) (c : Conn) (rs : List String) :
    directionReasons m c rs = rs ++ dirRs m c := by
  by_cases h : m.direction = some "outbound" <;>
    simp [directionReasons, dirRs, dirExternal, h] <;> split_ifs <;> simp

theorem matches_connection_eq (r : DetectionRule) (c : Conn) :
    matches_connection r c =
      if hardOkB r.match_ c then
        (decide (0 < (matchReasons r.match_ c).length), matchReasons r.match_ c)
      else (false, []) := by
  unfold matches_connection
  simp only [checkState_eq, checkStateIn_eq, checkRemotePortGte_eq,
    checkLocalPortGte_eq, checkLocalPortLte_eq, directionReasons_eq]
  by_cases h1 : stateOkB r.match_ c <;>
    by_cases h2 : stateInOkB r.match_ c <;>
    by_cases h3 : remotePortGteOkB r.match_ c <;>
    by_cases h4 : localPortGteOkB r.match_ c <;>
    by_cases h5 : localPortLteOkB r.match_ c <;>
    simp [h1, h2, h3, h4, h5, hardOkB, matchReasons, List.append_assoc]

theorem matchReasons_pos (m : MatchMap) (c : Conn) :
    decide (0 < (matchReasons m c).length) = (hardPresent m || dirExternal m c) := by
  cases h1 : m.state <;> cases h2 : m.state_in <;> cases h3 : m.remote_port_gte <;>
    cases h4 : m.local_port_gte <;> cases h5 : m.local_port_lte <;>
    by_cases h6 : dirExternal m c = true <;>
    simp [matchReasons, stateRs, stateInRs, remotePortGteRs, localPortGteRs,
      localPortLteRs, dirRs, hardPresent, h1, h2, h3, h4, h5, h6]

/-- C1 (amended): `matches_connection` returns `matched = true` iff every
hard predicate key present in the match map (`state`, `state_in`,
`remote_port_gte`, `local_port_gte`, `local_port_lte`) individually
succeeds against the connection AND at least one reason is produced —
i.e. some hard key is present, or `direction=outbound` is present with a
non-empty non-private remote address. The `direction` key never causes a
failure (so `exclude_private_ips` has no effect on the outcome), and
when any present hard key fails the result is `matched = false` with an
empty reasons list. -/
theorem matches_connection_conjunction_law (r : DetectionRule) (c : Conn) :
    ((matches_connection r c).1 =
      (hardOkB r.match_ c && (hardPresent r.match_ || dirExternal r.match_ c))) ∧
    (hardOkB r.match_ c = false → matches_connection r c = (false, [])) := by
  constructor
  · rw [matches_connection_eq]
    by_cases h : hardOkB r.match_ c <;> simp [h, matchReasons_pos]
  · intro h
    rw [matches_connection_eq, if_neg (by simp [h])]

theorem matches_connection_conjunction_law_witness :
    matches_connection { match_ := { state := some "LISTEN" } }
      { state := "ESTABLISHED" } = (false, []) :=
  (matches_connection_conjunction_law
    { match_ := { state := some "LISTEN" } } { state := "ESTABLISHED" }).2 (by decide)

/-- C1 counterexample: the claim's characterization (`specMatchedC1`,
written from the spec sentence) disagrees with the source on two
concrete inputs. First, for a rule with an empty match map every present
key vacuously succeeds — the claim predicts a match — yet the source
returns `(false, [])` because it requires a non-empty reasons list.
Second, for a rule carrying `state`, `direction: outbound` and
`exclude_private_ips` evaluated against a connection in state
`ESTABLISHED` with the private remote `10.0.0.5`, the claim predicts
non-match (the direction condition fails and is not tolerated, since
`exclude_private_ips` is present), yet the source matches with the
state reason alone: its direction block has no failing branch. -/
theorem matches_connection_spec_cex :
    (matches_connection { match_ := {} } {}).1 = false ∧
    specMatchedC1 ({} : MatchMap) ({} : Conn) = true ∧
    matches_connection
        { match_ := { state := some "ESTABLISHED", direction := some "outbound",
                      exclude_private_ips := true } }
        { state := "ESTABLISHED", remote_address := "10.0.0.5" } =
      (true, ["state=ESTABLISHED"]) ∧
    specMatchedC1
        { state := some "ESTABLISHED", direction := some "outbound",
          exclude_private_ips := true }
        { state := "ESTABLISHED", remote_address := "10.0.0.5" } = false := by
  decide

theorem secondOctetPrivate_iff (ip : String) :
    secondOctetPrivate ip = true ↔
      ∃ n : Int, pyInt ((splitOnChar dotChar ip).getD 1 "") = some n ∧
        16 ≤ n ∧ n ≤ 31 := by
  unfold secondOctetPrivate
  by_cases hl : 2 ≤ (splitOnChar dotChar ip).length
  · simp only [hl, if_true]
    cases hp : pyInt ((splitOnChar dotChar ip).getD 1 "") with
    | none => simp [hp]
    | some n =>
      simp only [hp, Bool.and_eq_true, decide_eq_true_eq, Option.some.injEq]
      constructor
      · rintro ⟨h1, h2⟩; exact ⟨n, rfl, h1, h2⟩
      · rintro ⟨m, hm, h1, h2⟩; cases hm; exact ⟨h1, h2⟩
  · have hd : (splitOnChar dotChar ip).getD 1 "" = "" :=
      List.getD_eq_default _ _ (by omega)
    have hd2 : (splitOnChar dotChar ip)[1]? = none :=
      List.getElem?_eq_none (by omega)
    have hnone : pyInt "" = none := rfl
    simp [hl, hd, hd2, hnone]

/-- C2 (amended): the private-address classifier returns private exactly
for: the empty string; addresses beginning `127.`, `10.`, `192.168.`;
`172.`-prefixed addresses whose second octet parses and lies in
[16, 31]; the exact addresses `::1`, `::` and `0.0.0.0`; and addresses
beginning `fe80:`. Every other input — including non-empty unparsable
strings — classifies public. The claim's concrete vectors all hold. -/
theorem is_private_ip_characterization (ip : String) :
    (DetectionRules._is_private_ip ip = true ↔ specPrivateC2 ip) ∧
    (DetectionRules._is_private_ip "10.0.0.5" = true ∧
     DetectionRules._is_private_ip "192.168.1.1" = true ∧
     DetectionRules._is_private_ip "172.16.0.1" = true ∧
     DetectionRules._is_private_ip "172.31.255.255" = true ∧
     DetectionRules._is_private_ip "127.0.0.1" = true ∧
     DetectionRules._is_private_ip "::1" = true ∧
     DetectionRules._is_private_ip "fe80::1" = true ∧
     DetectionRules._is_private_ip "0.0.0.0" = true ∧
     DetectionRules._is_private_ip "172.32.0.1" = false ∧
     DetectionRules._is_private_ip "8.8.8.8" = false ∧
     DetectionRules._is_private_ip "203.0.113.5" = false) := by
  constructor
  · unfold DetectionRules._is_private_ip specPrivateC2
    split_ifs with h1 h2 h3 h4 h5 h6 <;>
      simp_all [secondOctetPrivate_iff] <;> tauto
  · decide

/-- C2 counterexample: the claim additionally asserts that unparsable
input is treated as private, but a non-empty string that parses as no
recognised pattern falls through every clause and classifies public —
here `"172.xx.0.1"`, whose second octet `"xx"` raises in `int` (the
`try`/`except` swallows it), and the plainly unparsable `"not an ip"`. -/
theorem is_private_ip_unparsable_cex :
    DetectionRules._is_private_ip "172.xx.0.1" = false ∧
    pyInt "xx" = none ∧
    DetectionRules._is_private_ip "not an ip" = false := by
  decide

theorem le_msFold_init (l : List MatchedRule) (a : Nat) : a ≤ msFold l a := by
  induction l generalizing a with
  | nil => simp [msFold]
  | cons m rest ih =>
    calc a ≤ max a (severity_order m.severity) := Nat.le_max_left _ _
      _ ≤ msFold rest (max a (severity_order m.severity)) := ih _
      _ = msFold (m :: rest) a := by simp [msFold]

theorem le_msFold_of_mem {m : MatchedRule} {l : List MatchedRule} (a : Nat)
    (h : m ∈ l) : severity_order m.severity ≤ msFold l a := by
  induction l generalizing a with
  | nil => cases h
  | cons x rest ih =>
    rcases List.mem_cons.mp h with rfl | hmem
    · calc severity_order m.severity ≤ max a (severity_order m.severity) :=
        Nat.le_max_right _ _
        _ ≤ msFold rest (max a (severity_order m.severity)) := le_msFold_init _ _
        _ = msFold (m :: rest) a := by simp [msFold]
    · simpa [msFold] using ih (max a (severity_order x.severity)) hmem

theorem msMax_append_singleton (l : List MatchedRule) (m : MatchedRule) :
    msMax (l ++ [m]) = max (msMax l) (severity_order m.severity) := by
  simp [msMax, msFold, List.foldl_append]

theorem severity_order_pos_mem {s : String} (h : 0 < severity_order s) :
    s = "low" ∨ s = "medium" ∨ s = "high" ∨ s = "critical" := by
  unfold severity_order at h
  split_ifs at h <;> simp_all

theorem analyze_fold_inv (c : Conn) (rules : List DetectionRule) (st : AnalyzeState)
    (h1 : severity_order st.max_severity = msMax st.matched_rules)
    (h2 : st.matched_rules = [] → st.max_severity = "normal")
    (h3 : st.max_severity ∈ severityList) :
    severity_order (rules.foldl (analyzeStep c) st).max_severity =
        msMax (rules.foldl (analyzeStep c) st).matched_rules ∧
      ((rules.foldl (analyzeStep c) st).matched_rules = [] →
        (rules.foldl (analyzeStep c) st).max_severity = "normal") ∧
      (rules.foldl (analyzeStep c) st).max_severity ∈ severityList := by
  induction rules generalizing st with
  | nil => exact ⟨h1, h2, h3⟩
  | cons r rest ih =>
    simp only [List.foldl_cons]
    by_cases hm : (matches_connection r c).1
    · have hstep : analyzeStep c st r =
          { matched_rules := st.matched_rules ++
              [{ rule_id := r.id, rule_name := r.name,
                 severity := r.severity, reasons := (matches_connection r c).2 }]
            max_severity :=
              if severity_order st.max_severity < severity_order r.severity
              then r.severity else st.max_severity
            all_tags := setUnion st.all_tags r.tags
            all_reasons := st.all_reasons ++ (matches_connection r c).2 } := by
        simp [analyzeStep, hm]
      refine ih _ ?_ ?_ ?_
      · rw [hstep]
        simp only [msMax_append_singleton, ← h1]
        by_cases hlt : severity_order st.max_severity < severity_order r.severity
        · simp [hlt, Nat.max_eq_right (Nat.le_of_lt hlt)]
        · simp [hlt, Nat.max_eq_left (Nat.le_of_not_lt hlt)]
      · rw [hstep]; intro hemp; simp at hemp
      · rw [hstep]
        by_cases hlt : severity_order st.max_severity < severity_order r.severity
        · simp only [hlt, if_true]
          have hpos : 0 < severity_order r.severity :=
            lt_of_le_of_lt (Nat.zero_le _) hlt
          rcases severity_order_pos_mem hpos with h | h | h | h <;>
            simp [severityList, h]
        · simpa [hlt] using h3
    · have hstep : analyzeStep c st r = st := by simp [analyzeStep, hm]
      rw [hstep]
      exact ih st h1 h2 h3

/-- C3 (confirmed): the severity reported by `analyze_connection` has,
under the ordinal table (normal 0, low 1, medium 2, high 3, critical 4,
unknown strings 0), exactly the maximum ordinal among the matched
rules' severities — hence it is greater than or equal to every
individual matched rule's ordinal — and it is the string `"normal"`
when no rule matched. -/
theorem analyze_connection_severity_max (c : Conn) (config : DetectionConfig) :
    severity_order (analyze_connection c config).severity =
        msMax (analyze_connection c config).matched_rules ∧
      (∀ m ∈ (analyze_connection c config).matched_rules,
        severity_order m.severity ≤
          severity_order (analyze_connection c config).severity) ∧
      ((analyze_connection c config).matched_rules = [] →
        (analyze_connection c config).severity = "normal") := by
  have h := analyze_fold_inv c config.rules {}
    (by simp [msMax, msFold, severity_order]) (by simp) (by simp [severityList])
  have hsev : (analyze_connection c config).severity =
      (config.rules.foldl (analyzeStep c) {}).max_severity := rfl
  have hmr : (analyze_connection c config).matched_rules =
      (config.rules.foldl (analyzeStep c) {}).matched_rules := rfl
  refine ⟨by rw [hsev, hmr]; exact h.1, ?_, by rw [hsev, hmr]; exact h.2.1⟩
  intro m hm
  rw [hsev, hmr] at *
  rw [h.1]
  exact le_msFold_of_mem 0 hm

theorem analyze_connection_severity_max_witness :
    (analyze_connection {} ⟨[]⟩).severity = "normal" :=
  (analyze_connection_severity_max {} ⟨[]⟩).2.2 rfl

theorem analyze_severity_mem (c : Conn) (config : DetectionConfig) :
    (analyze_connection c config).severity ∈ severityList := by
  have h := analyze_fold_inv c config.rules {}
    (by simp [msMax, msFold, severity_order]) (by simp) (by simp [severityList])
  exact h.2.2

theorem bucketOf_cons_susp_self (config : DetectionConfig) (c : Conn)
    (cs : List Conn) (sev : String)
    (h : (analyze_connection c config).is_suspicious = true)
    (hs : (analyze_connection c config).severity = sev) :
    bucketOf config sev (c :: cs) =
      mkFinding c (analyze_connection c config) :: bucketOf config sev cs := by
  simp [bucketOf, h, hs]

theorem bucketOf_cons_susp_ne (config : DetectionConfig) (c : Conn)
    (cs : List Conn) (sev : String)
    (h : (analyze_connection c config).is_suspicious = true)
    (hs : (analyze_connection c config).severity ≠ sev) :
    bucketOf config sev (c :: cs) = bucketOf config sev cs := by
  simp [bucketOf, h, hs]

theorem bucketOf_cons_nonsusp (config : DetectionConfig) (c : Conn)
    (cs : List Conn) (sev : String)
    (h : (analyze_connection c config).is_suspicious = false) :
    bucketOf config sev (c :: cs) = bucketOf config sev cs := by
  simp [bucketOf, h]

theorem normalBucketOf_cons_susp_self (config : DetectionConfig) (c : Conn)
    (cs : List Conn)
    (h : (analyze_connection c config).is_suspicious = true)
    (hs : (analyze_connection c config).severity = "normal") :
    normalBucketOf config (c :: cs) =
      mkFinding c (analyze_connection c config) :: normalBucketOf config cs := by
  simp [normalBucketOf, h, hs]

theorem normalBucketOf_cons_susp_ne (config : DetectionConfig) (c : Conn)
    (cs : List Conn)
    (h : (analyze_connection c config).is_suspicious = true)
    (hs : (analyze_connection c config).severity ≠ "normal") :
    normalBucketOf config (c :: cs) = normalBucketOf config cs := by
  simp [normalBucketOf, h, hs]

theorem normalBucketOf_cons_nonsusp (config : DetectionConfig) (c : Conn)
    (cs : List Conn)
    (h : (analyze_connection c config).is_suspicious = false) :
    normalBucketOf config (c :: cs) = .rawConn c :: normalBucketOf config cs := by
  simp [normalBucketOf, h]

theorem connStep_fold (config : DetectionConfig) (conns : List Conn)
    (b : Buckets) (t : List String) :
    ∃ t2, conns.foldl (connStep config) (some (b, t)) =
      some ({ critical := b.critical ++ bucketOf config "critical" conns,
              high := b.high ++ bucketOf config "high" conns,
              medium := b.medium ++ bucketOf config "medium" conns,
              low := b.low ++ bucketOf config "low" conns,
              normal := b.normal ++ normalBucketOf config conns }, t2) := by
  induction conns generalizing b t with
  | nil =>
    refine ⟨t, ?_⟩
    cases b
    simp [bucketOf, normalBucketOf]
  | cons c cs ih =>
    by_cases hsusp : (analyze_connection c config).is_suspicious
    · have hmem := analyze_severity_mem c config
      simp only [severityList, List.mem_cons, List.mem_singleton,
        List.not_mem_nil, or_false] at hmem
      rcases hmem with hs | hs | hs | hs | hs
      · -- severity "normal": the finding lands in the normal bucket
        have hcs : connStep config (some (b, t)) c =
            some ({ b with normal := b.normal ++
                [mkFinding c (analyze_connection c config)] },
              setUnion t (analyze_connection c config).tags) := by
          simp [connStep, hsusp, hs, bucketAppend]
        obtain ⟨t2, h2⟩ := ih { b with normal := b.normal ++
          [mkFinding c (analyze_connection c config)] }
          (setUnion t (analyze_connection c config).tags)
        refine ⟨t2, ?_⟩
        rw [List.foldl_cons, hcs, h2,
          bucketOf_cons_susp_ne config c cs "critical" hsusp (by rw [hs]; decide),
          bucketOf_cons_susp_ne config c cs "high" hsusp (by rw [hs]; decide),
          bucketOf_cons_susp_ne config c cs "medium" hsusp (by rw [hs]; decide),
          bucketOf_cons_susp_ne config c cs "low" hsusp (by rw [hs]; decide),
          normalBucketOf_cons_susp_self config c cs hsusp hs]
        simp
      · have hcs : connStep config (some (b, t)) c =
            some ({ b with low := b.low ++
                [mkFinding c (analyze_connection c config)] },
              setUnion t (analyze_connection c config).tags) := by
          simp [connStep, hsusp, hs, bucketAppend]
        obtain ⟨t2, h2⟩ := ih { b with low := b.low ++
          [mkFinding c (analyze_connection c config)] }
          (setUnion t (analyze_connection c config).tags)
        refine ⟨t2, ?_⟩
        rw [List.foldl_cons, hcs, h2,
          bucketOf_cons_susp_ne config c cs "critical" hsusp (by rw [hs]; decide),
          bucketOf_cons_susp_ne config c cs "high" hsusp (by rw [hs]; decide),
          bucketOf_cons_susp_ne config c cs "medium" hsusp (by rw [hs]; decide),
          bucketOf_cons_susp_self config c cs "low" hsusp hs,
          normalBucketOf_cons_susp_ne config c cs hsusp (by rw [hs]; decide)]
        simp
      · have hcs : connStep config (some (b, t)) c =
            some ({ b with medium := b.medium ++
                [mkFinding c (analyze_connection c config)] },
              setUnion t (analyze_connection c config).tags) := by
          simp [connStep, hsusp, hs, bucketAppend]
        obtain ⟨t2, h2⟩ := ih { b with medium := b.medium ++
          [mkFinding c (analyze_connection c config)] }
          (setUnion t (analyze_connection c config).tags)
        refine ⟨t2, ?_⟩
        rw [List.foldl_cons, hcs, h2,
          bucketOf_cons_susp_ne config c cs "critical" hsusp (by rw [hs]; decide),
          bucketOf_cons_susp_ne config c cs "high" hsusp (by rw [hs]; decide),
          bucketOf_cons_susp_self config c cs "medium" hsusp hs,
          bucketOf_cons_susp_ne config c cs "low" hsusp (by rw [hs]; decide),
          normalBucketOf_cons_susp_ne config c cs hsusp (by rw [hs]; decide)]
        simp
      · have hcs : connStep config (some (b, t)) c =
            some ({ b with high := b.high ++
                [mkFinding c (analyze_connection c config)] },
              setUnion t (analyze_connection c config).tags) := by
          simp [connStep, hsusp, hs, bucketAppend]
        obtain ⟨t2, h2⟩ := ih { b with high := b.high ++
          [mkFinding c (analyze_connection c config)] }
          (setUnion t (analyze_connection c config).tags)
        refine ⟨t2, ?_⟩
        rw [List.foldl_cons, hcs, h2,
          bucketOf_cons_susp_ne config c cs "critical" hsusp (by rw [hs]; decide),
          bucketOf_cons_susp_self config c cs "high" hsusp hs,
          bucketOf_cons_susp_ne config c cs "medium" hsusp (by rw [hs]; decide),
          bucketOf_cons_susp_ne config c cs "low" hsusp (by rw [hs]; decide),
          normalBucketOf_cons_susp_ne config c cs hsusp (by rw [hs]; decide)]
        simp
      · have hcs : connStep config (some (b, t)) c =
            some ({ b with critical := b.critical ++
                [mkFinding c (analyze_connection c config)] },
              setUnion t (analyze_connection c config).tags) := by
          simp [connStep, hsusp, hs, bucketAppend]
        obtain ⟨t2, h2⟩ := ih { b with critical := b.critical ++
          [mkFinding c (analyze_connection c config)] }
          (setUnion t (analyze_connection c config).tags)
        refine ⟨t2, ?_⟩
        rw [List.foldl_cons, hcs, h2,
          bucketOf_cons_susp_self config c cs "critical" hsusp hs,
          bucketOf_cons_susp_ne config c cs "high" hsusp (by rw [hs]; decide),
          bucketOf_cons_susp_ne config c cs "medium" hsusp (by rw [hs]; decide),
          bucketOf_cons_susp_ne config c cs "low" hsusp (by rw [hs]; decide),
          normalBucketOf_cons_susp_ne config c cs hsusp (by rw [hs]; decide)]
        simp
    · have hsusp2 : (analyze_connection c config).is_suspicious = false := by
        simpa using hsusp
      have hcs : connStep config (some (b, t)) c =
          some ({ b with normal := b.normal ++ [BucketEntry.rawConn c] }, t) := by
        simp [connStep, hsusp2]
      obtain ⟨t2, h2⟩ := ih { b with normal := b.normal ++
        [BucketEntry.rawConn c] } t
      refine ⟨t2, ?_⟩
      rw [List.foldl_cons, hcs, h2,
        bucketOf_cons_nonsusp config c cs "critical" hsusp2,
        bucketOf_cons_nonsusp config c cs "high" hsusp2,
        bucketOf_cons_nonsusp config c cs "medium" hsusp2,
        bucketOf_cons_nonsusp config c cs "low" hsusp2,
        normalBucketOf_cons_nonsusp config c cs hsusp2]
      simp

theorem bucket_lengths_sum (config : DetectionConfig) (conns : List Conn) :
    (bucketOf config "critical" conns).length +
      (bucketOf config "high" conns).length +
      (bucketOf config "medium" conns).length +
      (bucketOf config "low" conns).length +
      (normalBucketOf config conns).length = conns.length := by
  induction conns with
  | nil => simp [bucketOf, normalBucketOf]
  | cons c cs ih =>
    by_cases hsusp : (analyze_connection c config).is_suspicious
    · have hmem := analyze_severity_mem c config
      simp only [severityList, List.mem_cons, List.mem_singleton,
        List.not_mem_nil, or_false] at hmem
      rcases hmem with hs | hs | hs | hs | hs
      · rw [bucketOf_cons_susp_ne config c cs "critical" hsusp (by rw [hs]; decide),
          bucketOf_cons_susp_ne config c cs "high" hsusp (by rw [hs]; decide),
          bucketOf_cons_susp_ne config c cs "medium" hsusp (by rw [hs]; decide),
          bucketOf_cons_susp_ne config c cs "low" hsusp (by rw [hs]; decide),
          normalBucketOf_cons_susp_self config c cs hsusp hs]
        simp only [List.length_cons]
        omega
      · rw [bucketOf_cons_susp_ne config c cs "critical" hsusp (by rw [hs]; decide),
          bucketOf_cons_susp_ne config c cs "high" hsusp (by rw [hs]; decide),
          bucketOf_cons_susp_ne config c cs "medium" hsusp (by rw [hs]; decide),
          bucketOf_cons_susp_self config c cs "low" hsusp hs,
          normalBucketOf_cons_susp_ne config c cs hsusp (by rw [hs]; decide)]
        simp only [List.length_cons]
        omega
      · rw [bucketOf_cons_susp_ne config c cs "critical" hsusp (by rw [hs]; decide),
          bucketOf_cons_susp_ne config c cs "high" hsusp (by rw [hs]; decide),
          bucketOf_cons_susp_self config c cs "medium" hsusp hs,
          bucketOf_cons_susp_ne config c cs "low" hsusp (by rw [hs]; decide),
          normalBucketOf_cons_susp_ne config c cs hsusp (by rw [hs]; decide)]
        simp only [List.length_cons]
        omega
      · rw [bucketOf_cons_susp_ne config c cs "critical" hsusp (by rw [hs]; decide),
          bucketOf_cons_susp_self config c cs "high" hsusp hs,
          bucketOf_cons_susp_ne config c cs "medium" hsusp (by rw [hs]; decide),
          bucketOf_cons_susp_ne config c cs "low" hsusp (by rw [hs]; decide),
          normalBucketOf_cons_susp_ne config c cs hsusp (by rw [hs]; decide)]
        simp only [List.length_cons]
        omega
      · rw [bucketOf_cons_susp_self config c cs "critical" hsusp hs,
          bucketOf_cons_susp_ne config c cs "high" hsusp (by rw [hs]; decide),
          bucketOf_cons_susp_ne config c cs "medium" hsusp (by rw [hs]; decide),
          bucketOf_cons_susp_ne config c cs "low" hsusp (by rw [hs]; decide),
          normalBucketOf_cons_susp_ne config c cs hsusp (by rw [hs]; decide)]
        simp only [List.length_cons]
        omega
    · have hsusp2 : (analyze_connection c config).is_suspicious = false := by
        simpa using hsusp
      rw [bucketOf_cons_nonsusp config c cs "critical" hsusp2,
        bucketOf_cons_nonsusp config c cs "high" hsusp2,
        bucketOf_cons_nonsusp config c cs "medium" hsusp2,
        bucketOf_cons_nonsusp config c cs "low" hsusp2,
        normalBucketOf_cons_nonsusp config c cs hsusp2]
      simp only [List.length_cons]
      omega

/-- C4 (confirmed): `analyze_connections` partitions the connections —
every non-suspicious connection lands (raw) in the `normal` bucket and
every suspicious one lands (as a summary finding) in the bucket named by
its analysis severity, as characterized by the filter descriptions
`bucketOf` / `normalBucketOf`; the reported `suspicious_count` equals
`total_connections` minus the size of the `normal` bucket, and every
`by_severity` count equals the size of its bucket. -/
theorem analyze_connections_partition (conns : List Conn) (config : DetectionConfig) :
    ∃ r, analyze_connections conns config = some r ∧
      r.findings.critical = bucketOf config "critical" conns ∧
      r.findings.high = bucketOf config "high" conns ∧
      r.findings.medium = bucketOf config "medium" conns ∧
      r.findings.low = bucketOf config "low" conns ∧
      r.findings.normal = normalBucketOf config conns ∧
      r.total_connections = conns.length ∧
      r.total_connections = r.findings.critical.length + r.findings.high.length +
        r.findings.medium.length + r.findings.low.length + r.findings.normal.length ∧
      r.suspicious_count = r.total_connections - r.findings.normal.length ∧
      r.by_severity_critical = r.findings.critical.length ∧
      r.by_severity_high = r.findings.high.length ∧
      r.by_severity_medium = r.findings.medium.length ∧
      r.by_severity_low = r.findings.low.length := by
  obtain ⟨t2, h2⟩ := connStep_fold config conns {} []
  have hsum := bucket_lengths_sum config conns
  unfold analyze_connections
  rw [h2]
  refine ⟨_, rfl, by simp, by simp, by simp, by simp, by simp, by simp, ?_, ?_,
    by simp, by simp, by simp, by simp⟩
  · simp
    omega
  · simp
    omega

/-- C9 (confirmed): the aggregate severity of `analyze_connection` is
always one of `normal`, `low`, `medium`, `high`, `critical` — a matched
rule carrying an unrecognized severity string defaults to ordinal 0 and
can never win the strict-increase update — and consequently the
severity-named bucket insertion of `analyze_connections` always finds an
existing bucket (no `KeyError`: the result is always `some`). -/
theorem analyze_severity_vocabulary (c : Conn) (config : DetectionConfig)
    (conns : List Conn) :
    (analyze_connection c config).severity ∈ severityList ∧
    (analyze_connections conns config).isSome = true := by
  refine ⟨analyze_severity_mem c config, ?_⟩
  obtain ⟨t2, h2⟩ := connStep_fold config conns {} []
  unfold analyze_connections
  rw [h2]
  rfl

/-- C5 counterexample: the claim reads `new_pids` as `current_pids`
minus the baseline whenever a baseline pid list is supplied, but the
source guards the difference with Python truthiness (`if baseline_pids`),
so an explicitly supplied empty baseline list yields `∅` instead of
`current_pids − ∅ = current_pids`: with one connection of pid 5 and
baseline `[]`, the code returns `∅` while the claim (`specNewPidsC5`,
written from the spec sentence) demands `{5}`. -/
theorem compare_baseline_empty_list_cex :
    (compare_baseline [{ pid := some 5 }] (some []) none).new_pids = ∅ ∧
    specNewPidsC5 [{ pid := some 5 }] (some []) = {5} ∧
    (∅ : Finset Int) ≠ ({5} : Finset Int) := by
  decide

/-- C5 (amended): `new_pids` equals `current_pids` set-minus the
baseline pids when a NON-EMPTY baseline pid list is supplied, and is
empty when the argument is omitted or an empty list; symmetrically for
remote endpoints. Consequently, whenever the current pid set equals the
baseline pid set and the current remote-endpoint set equals the baseline
remote set, both `new_pids` and `new_remote_endpoints` are empty. -/
theorem compare_baseline_diff (conns : List Conn) (bp : Option (List Int))
    (br : Option (List String)) :
    (∀ l, bp = some l → l ≠ [] →
      (compare_baseline conns bp br).new_pids = current_pids conns \ l.toFinset) ∧
    (bp = none ∨ bp = some [] → (compare_baseline conns bp br).new_pids = ∅) ∧
    (∀ l, br = some l → l ≠ [] →
      (compare_baseline conns bp br).new_remote_endpoints =
        current_remotes conns \ l.toFinset) ∧
    (br = none ∨ br = some [] →
      (compare_baseline conns bp br).new_remote_endpoints = ∅) ∧
    (current_pids conns = (bp.getD []).toFinset →
      current_remotes conns = (br.getD []).toFinset →
      (compare_baseline conns bp br).new_pids = ∅ ∧
      (compare_baseline conns bp br).new_remote_endpoints = ∅) := by
  refine ⟨?_, ?_, ?_, ?_, ?_⟩
  · rintro l rfl hl
    cases l with
    | nil => exact absurd rfl hl
    | cons x xs => simp [compare_baseline, truthyList]
  · rintro (rfl | rfl) <;> simp [compare_baseline, truthyList]
  · rintro l rfl hl
    cases l with
    | nil => exact absurd rfl hl
    | cons x xs => simp [compare_baseline, truthyList]
  · rintro (rfl | rfl) <;> simp [compare_baseline, truthyList]
  · intro h1 h2
    constructor
    · rcases bp with _ | l
      · simp [compare_baseline, truthyList]
      · cases l with
        | nil => simp [compare_baseline, truthyList]
        | cons x xs =>
          simp only [Option.getD_some] at h1
          simp [compare_baseline, truthyList, h1]
    · rcases br with _ | l
      · simp [compare_baseline, truthyList]
      · cases l with
        | nil => simp [compare_baseline, truthyList]
        | cons x xs =>
          simp only [Option.getD_some] at h2
          simp [compare_baseline, truthyList, h2]

theorem compare_baseline_diff_witness :
    (compare_baseline
        [{ pid := some 5, remote_address := "1.2.3.4", remote_port := 80 }]
        (some [5]) (some ["1.2.3.4:80"])).new_pids = ∅ ∧
    (compare_baseline
        [{ pid := some 5, remote_address := "1.2.3.4", remote_port := 80 }]
        (some [5]) (some ["1.2.3.4:80"])).new_remote_endpoints = ∅ :=
  (compare_baseline_diff
    [{ pid := some 5, remote_address := "1.2.3.4", remote_port := 80 }]
    (some [5]) (some ["1.2.3.4:80"])).2.2.2.2 (by decide) (by decide)

theorem stateFindings_nil_vocab (rules : List DetectionRule) :
    stateFindings rules [] = [] := by
  induction rules with
  | nil => rfl
  | cons r rest ih =>
    have hr : ruleStateFindings [] r = [] := by
      unfold ruleStateFindings
      cases r.match_.state <;> cases r.match_.state_in <;>
        simp [List.filterMap_eq_nil_iff]
    simpa [stateFindings, hr] using ih

theorem mem_stateFindings_of_state {rules : List DetectionRule}
    {valid : List String} {r : DetectionRule} {v : String}
    (hr : r ∈ rules) (hv : r.match_.state = some v)
    (hnot : supper v ∉ valid) (hne : valid ≠ []) :
    mkStateFinding r (supper v) ∈ stateFindings rules valid := by
  have hin : mkStateFinding r (supper v) ∈ ruleStateFindings valid r := by
    unfold ruleStateFindings
    rw [hv]
    simp [hnot, hne]
  simp only [stateFindings, List.mem_flatten]
  exact ⟨ruleStateFindings valid r, List.mem_map.mpr ⟨r, hr, rfl⟩, hin⟩

theorem mem_stateFindings_of_state_in {rules : List DetectionRule}
    {valid : List String} {r : DetectionRule} {l : List String} {s : String}
    (hr : r ∈ rules) (hv : r.match_.state_in = some l) (hs : s ∈ l)
    (hnot : supper s ∉ valid) (hne : valid ≠ []) :
    mkStateFinding r s ∈ stateFindings rules valid := by
  have hin : mkStateFinding r s ∈ ruleStateFindings valid r := by
    unfold ruleStateFindings
    rw [hv]
    refine List.mem_append.mpr (Or.inr ?_)
    exact List.mem_filterMap.mpr ⟨s, hs, by simp [hnot, hne]⟩
  simp only [stateFindings, List.mem_flatten]
  exact ⟨ruleStateFindings valid r, List.mem_map.mpr ⟨r, hr, rfl⟩, hin⟩

theorem stateFindings_sound {rules : List DetectionRule} {valid : List String} :
    ∀ f ∈ stateFindings rules valid,
      f.severity = "warning" ∧ ∃ r ∈ rules, f.rule_id = r.id := by
  intro f hf
  simp only [stateFindings, List.mem_flatten, List.mem_map] at hf
  obtain ⟨fs, ⟨r, hr, rfl⟩, hfr⟩ := hf
  unfold ruleStateFindings at hfr
  rcases List.mem_append.mp hfr with h | h
  · cases hst : r.match_.state with
    | none => rw [hst] at h; cases h
    | some v =>
      simp only [hst] at h
      split_ifs at h with hc
      · rcases List.mem_singleton.mp h with rfl
        exact ⟨rfl, r, hr, rfl⟩
      · cases h
  · cases hst : r.match_.state_in with
    | none => rw [hst] at h; cases h
    | some l =>
      simp only [hst] at h
      obtain ⟨s, _, hsome⟩ := List.mem_filterMap.mp h
      split_ifs at hsome with hc
      cases (Option.some.injEq _ _).mp hsome
      exact ⟨rfl, r, hr, rfl⟩

/-- C6 (confirmed): in the consistency check, for every rule referencing
`state` or `state_in`, each referenced state that (uppercased) is not in
the valid-states vocabulary contributes a warning-severity finding that
names the rule; the state check contributes nothing at all when the
vocabulary is empty; every state finding is warning-severity and names a
rule of the store; and the findings are returned inside the result
structure of the (total) `analyze_spec_consistency`, never raised. -/
theorem spec_consistency_state_check (rules : List DetectionRule)
    (valid : List String) :
    (valid = [] → stateFindings rules valid = []) ∧
    (∀ r ∈ rules, ∀ v, r.match_.state = some v → supper v ∉ valid →
      valid ≠ [] → mkStateFinding r (supper v) ∈ stateFindings rules valid) ∧
    (∀ r ∈ rules, ∀ l, r.match_.state_in = some l → ∀ s ∈ l,
      supper s ∉ valid → valid ≠ [] →
      mkStateFinding r s ∈ stateFindings rules valid) ∧
    (∀ f ∈ stateFindings rules valid,
      f.severity = "warning" ∧ ∃ r ∈ rules, f.rule_id = r.id) ∧
    (analyze_spec_consistency rules valid).findings =
      stateFindings rules valid ++ severityFindings rules := by
  refine ⟨?_, ?_, ?_, stateFindings_sound, rfl⟩
  · rintro rfl; exact stateFindings_nil_vocab rules
  · intro r hr v hv hnot hne
    exact mem_stateFindings_of_state hr hv hnot hne
  · intro r hr l hv s hs hnot hne
    exact mem_stateFindings_of_state_in hr hv hs hnot hne

theorem spec_consistency_state_check_witness :
    mkStateFinding { id := "r1", match_ := { state := some "weird" } } "WEIRD" ∈
      stateFindings [{ id := "r1", match_ := { state := some "weird" } }]
        ["LISTEN"] :=
  (spec_consistency_state_check
      [{ id := "r1", match_ := { state := some "weird" } }] ["LISTEN"]).2.1
    { id := "r1", match_ := { state := some "weird" } } (by simp)
    "weird" rfl (by decide) (by decide)

/-- C7 (confirmed): for every description, the suggested severity is
`"high"` exactly when the detected tags include `c2`, `exfiltration` or
`backdoor`, and `"medium"` in every other case; and the scenario
`suggest_new_rule("C2 beacon pattern detected")` detects both `c2` and
`beacon` and is rated `"high"`. -/
theorem suggested_severity_spec (d : String) :
    (suggested_severity (detected_tags d) =
      if "c2" ∈ detected_tags d ∨ "exfiltration" ∈ detected_tags d ∨
          "backdoor" ∈ detected_tags d then "high" else "medium") ∧
    ("c2" ∈ (suggest_new_rule "C2 beacon pattern detected" none).tags ∧
      "beacon" ∈ (suggest_new_rule "C2 beacon pattern detected" none).tags ∧
      (suggest_new_rule "C2 beacon pattern detected" none).severity = "high") := by
  constructor
  · unfold suggested_severity
    by_cases h1 : "c2" ∈ detected_tags d <;>
      by_cases h2 : "exfiltration" ∈ detected_tags d <;>
      by_cases h3 : "backdoor" ∈ detected_tags d <;>
      simp [h1, h2, h3, List.elem_iff]
  · refine ⟨by decide, by decide, by decide⟩

/-- C8 (confirmed): when sample connections are supplied, one distinct
state among the samples becomes an exact `state` predicate and two or
more distinct states become a `state_in` predicate; and with at least
one truthy observed remote port, the minimum observed port yields
`remote_port_gte = 49152` when it exceeds 49152, else
`remote_port_gte = 1024` when it exceeds 1024, else no port predicate
(and no ports yield no port predicate). -/
theorem build_match_criteria_spec (samples : List Conn) :
    (∀ s, sampleStates samples = [s] →
      (build_match_criteria samples).state = some s ∧
      (build_match_criteria samples).state_in = none) ∧
    (2 ≤ (sampleStates samples).length →
      (build_match_criteria samples).state_in = some (sampleStates samples) ∧
      (build_match_criteria samples).state = none) ∧
    (∀ p ps, samplePorts samples = p :: ps →
      (build_match_criteria samples).remote_port_gte =
        (if 49152 < ps.foldl min p then some 49152
         else if 1024 < ps.foldl min p then some 1024 else none)) ∧
    (samplePorts samples = [] →
      (build_match_criteria samples).remote_port_gte = none) := by
  refine ⟨?_, ?_, ?_, ?_⟩
  · intro s hs
    cases hp : samplePorts samples with
    | nil => simp [build_match_criteria, hs, hp]
    | cons p ps =>
      simp only [build_match_criteria, hs, hp]
      split_ifs <;> simp_all
  · intro hlen
    cases hst : sampleStates samples with
    | nil => rw [hst] at hlen; simp at hlen
    | cons s0 rest =>
      cases rest with
      | nil => rw [hst] at hlen; simp at hlen
      | cons s1 rest2 =>
        cases hp : samplePorts samples with
        | nil => simp [build_match_criteria, hst, hp]
        | cons p ps =>
          simp only [build_match_criteria, hst, hp]
          split_ifs <;> simp_all
  · intro p ps hp
    cases hst : sampleStates samples with
    | nil =>
      simp only [build_match_criteria, hst, hp]
      split_ifs <;> simp_all
    | cons s0 rest =>
      cases rest with
      | nil =>
        simp only [build_match_criteria, hst, hp]
        split_ifs <;> simp_all
      | cons s1 rest2 =>
        simp only [build_match_criteria, hst, hp]
        split_ifs <;> simp_all
  · intro hp
    cases hst : sampleStates samples with
    | nil => simp [build_match_criteria, hst, hp]
    | cons s0 rest =>
      cases rest with
      | nil => simp [build_match_criteria, hst, hp]
      | cons s1 rest2 => simp [build_match_criteria, hst, hp]

theorem build_match_criteria_spec_witness :
    ((build_match_criteria [{ state := "LISTEN", remote_port := 50000 }]).state =
        some "LISTEN" ∧
      (build_match_criteria
        [{ state := "LISTEN", remote_port := 50000 }]).state_in = none) ∧
    (build_match_criteria
        [{ state := "LISTEN", remote_port := 50000 }]).remote_port_gte =
      some 49152 :=
  ⟨(build_match_criteria_spec [{ state := "LISTEN", remote_port := 50000 }]).1
      "LISTEN" (by decide),
    ((build_match_criteria_spec [{ state := "LISTEN", remote_port := 50000 }]).2.2.1
      50000 [] (by decide)).trans (by decide)⟩

/-- C10 counterexample: the two private-address classifiers disagree on
the empty string, on `"::"` and on `"0.0.0.0"` (the `detection_rules`
version classifies all three private, the `server` version public), and
on `172.`-prefixed addresses whose second octet does not parse (the
`server` version raises `ValueError`, modelled as `none`, while the
`detection_rules` version swallows the error and classifies public). -/
theorem private_ip_twins_cex :
    DetectionRules._is_private_ip "" = true ∧
    Server._is_private_ip "" = some false ∧
    DetectionRules._is_private_ip "::" = true ∧
    Server._is_private_ip "::" = some false ∧
    DetectionRules._is_private_ip "0.0.0.0" = true ∧
    Server._is_private_ip "0.0.0.0" = some false ∧
    DetectionRules._is_private_ip "172.xx.0.1" = false ∧
    Server._is_private_ip "172.xx.0.1" = none := by
  decide

theorem step172_true_iff (ip : String) :
    step172 ip = some true ↔
      strStartsWith ip "172." = true ∧ secondOctetPrivate ip = true := by
  unfold step172 secondOctetPrivate
  by_cases c3 : strStartsWith ip "172." = true
  · by_cases hl : 2 ≤ (splitOnChar dotChar ip).length
    · cases hq : pyInt ((splitOnChar dotChar ip).getD 1 "") with
      | none =>
        rw [List.getD_eq_getElem?_getD] at hq
        simp [c3, hl, hq]
      | some n =>
        rw [List.getD_eq_getElem?_getD] at hq
        simp [c3, hl, hq]
    · simp [c3, hl]
  · simp [c3]

theorem step172_false_cond (ip : String) (h : step172 ip = some false) :
    (strStartsWith ip "172." && secondOctetPrivate ip) = false := by
  unfold step172 at h
  unfold secondOctetPrivate
  by_cases c3 : strStartsWith ip "172." = true
  · by_cases hl : 2 ≤ (splitOnChar dotChar ip).length
    · cases hq : pyInt ((splitOnChar dotChar ip).getD 1 "") with
      | none =>
        rw [List.getD_eq_getElem?_getD] at hq
        simp [c3, hl, hq] at h
      | some n =>
        rw [List.getD_eq_getElem?_getD] at hq
        simp_all [c3, hl, hq]
    · simp_all [c3, hl]
  · simp [c3]

/-- C10 (amended): away from the divergence families exhibited by the
counterexample — the empty string, `"::"`, `"0.0.0.0"`, and inputs on
which the `server` version raises (a `172.`-prefixed address with an
unparsable second octet) — the two classifiers agree: whenever the
`server` version returns a value on an input other than those three
strings, the `detection_rules` version returns the same classification. -/
theorem private_ip_twins_agree (ip : String) (b : Bool) (h1 : ip ≠ "")
    (h2 : ip ≠ "::") (h3 : ip ≠ "0.0.0.0")
    (h4 : Server._is_private_ip ip = some b) :
    DetectionRules._is_private_ip ip = b := by
  unfold Server._is_private_ip at h4
  unfold DetectionRules._is_private_ip
  by_cases c1 : (strStartsWith ip "127." || strStartsWith ip "10.") = true
  · simp_all
  · by_cases c2 : strStartsWith ip "192.168." = true
    · simp_all
    · cases hstep : step172 ip with
      | none =>
        rw [hstep] at h4
        simp [c1, c2] at h4
      | some tv =>
        rw [hstep] at h4
        cases tv with
        | true =>
          have h172 := (step172_true_iff ip).mp hstep
          simp_all
        | false =>
          have h172 := step172_false_cond ip hstep
          by_cases c4 : tailPrivate ip = true <;>
            simp_all [tailPrivate]

theorem private_ip_twins_agree_witness :
    DetectionRules._is_private_ip "8.8.8.8" = false :=
  private_ip_twins_agree "8.8.8.8" false (by decide) (by decide) (by decide)
    (by decide)

end Theorems

end Ntomb
